import Mathlib

/-!
Verification of the circuit-breaker / fallback component of
`backend/transactions/ml_client.py` (class `MLServiceClient`).

The embedding mirrors the Python source:

* `CircuitState` holds the three mutable circuit-breaker fields
  `_failure_count`, `_is_circuit_open`, `_circuit_open_time`.
* `ClientConfig` holds the construction-time flags `enabled` and
  `fallback_enabled`.
* Time is modelled as natural-number seconds; every public operation
  receives the current time `now` (the source reads `datetime.now()`).
* The behaviour of the single outbound HTTP request a call may issue is an
  explicit parameter (`RemoteResult` / `BatchRemoteResult`): the source's
  `requests.post` either returns a response with a status code and a JSON
  body, raises `requests.Timeout`, raises `requests.ConnectionError`, or
  raises some other exception.  All Python exception handling in
  `predict_category` / `predict_batch` is total (every exception class is
  caught), so the embedding is a total function; "no fault propagates to
  the caller" is rendered by the absence of any error channel in the
  return type.
* Each result record carries a `network_calls` counter, incremented
  exactly where the source executes `requests.post`.
* The Python dicts returned to the caller are embedded as
  `PredictionOutcome` (two shapes: the success dict built on HTTP 200 and
  the fallback dict built by `_fallback_response`); `None` is `Option`'s
  `none`.
-/

/-- Python floats carried verbatim through the client (confidence values,
inference times) are modelled as rationals; the client never computes with
them, it only copies them. -/
abbrev PyFloat := Rat

/-- One entry of the `alternatives` list inside the remote payload's
`prediction` object; the client passes these through untouched. -/
structure AltEntry where
  category : Option String
  confidence : Option PyFloat
deriving DecidableEq

/-- The `prediction` object of a 200 response body, read with
`prediction.get('category')`, `prediction.get('confidence')`,
`prediction.get('alternatives', [])`; absent keys are `none` / `[]`. -/
structure Prediction where
  category : Option String
  confidence : Option PyFloat
  alternatives : List AltEntry
deriving DecidableEq

/-- The `metadata` object of a 200 response body. -/
structure PayloadMetadata where
  preprocessed_text : Option String
  inference_time_ms : Option PyFloat
  model_version : Option String
deriving DecidableEq

/-- A parsed 200 response body (`data` in the source); a missing
`prediction` or `metadata` key is the record with all fields `none`/`[]`,
matching `data.get('prediction', {})` / `data.get('metadata', {})`. -/
structure Payload where
  prediction : Prediction
  metadata : PayloadMetadata
deriving DecidableEq

/-- Behaviour of the one `requests.post` in `predict_category`, as the
source distinguishes it: a response with a status code and body, a
`requests.Timeout`, a `requests.ConnectionError`, or any other exception
(caught by the final `except Exception`). -/
inductive RemoteResult where
  | response (status : Nat) (payload : Payload)
  | timeout
  | connectionError
  | raised
deriving DecidableEq

/-- The dict `predict_category` returns: either the success dict built in
the HTTP-200 branch or the fallback dict built by `_fallback_response`.
Field order and contents follow the two dict literals in the source. -/
inductive PredictionOutcome where
  | ok (category : Option String) (confidence : PyFloat)
      (alternatives : List AltEntry) (preprocessed_text : Option String)
      (inference_time_ms : Option PyFloat) (model_version : Option String)
      (success : Bool)
  | fb (category : Option String) (confidence : PyFloat)
      (alternatives : List AltEntry) (success : Bool) (fallback : Bool)
      (fallback_reason : String)
deriving DecidableEq

/-- Whether an outcome is the fallback-dict shape (`'fallback': True`). -/
def PredictionOutcome.is_fallback : PredictionOutcome → Bool
  | .ok .. => false
  | .fb .. => true

/-- The circuit-breaker state: `_failure_count`, `_is_circuit_open`,
`_circuit_open_time` of `MLServiceClient`. -/
structure CircuitState where
  failure_count : Nat
  is_circuit_open : Bool
  circuit_open_time : Option Nat
deriving DecidableEq

/-- `__init__`: `_failure_count = 0`, `_is_circuit_open = False`,
`_circuit_open_time = None`. -/
def init_state : CircuitState :=
  { failure_count := 0, is_circuit_open := false, circuit_open_time := none }

/-- `_failure_threshold = 3`. -/
def failure_threshold : Nat := 3

/-- `_recovery_timeout = 60` seconds. -/
def recovery_timeout : Nat := 60

/-- The construction-time flags of `MLServiceClient` that the claims
depend on (`enabled`, `fallback_enabled`); `base_url` and `timeout` only
parameterise the HTTP request itself. -/
structure ClientConfig where
  enabled : Bool
  fallback_enabled : Bool
deriving DecidableEq

/-- `_is_circuit_breaker_open`: returns the boolean the source returns and
the state after the call (the recovery branch mutates all three fields). -/
def is_circuit_breaker_open (s : CircuitState) (now : Nat) :
    Bool × CircuitState :=
  if s.is_circuit_open = false then
    (false, s)
  else
    match s.circuit_open_time with
    | some t =>
        if recovery_timeout ≤ now - t then
          (false, { failure_count := 0, is_circuit_open := false,
                    circuit_open_time := none })
        else
          (true, s)
    | none => (true, s)

/-- `_record_failure`: increment the counter; at the threshold, open the
circuit and stamp `_circuit_open_time` with the current time. -/
def record_failure (s : CircuitState) (now : Nat) : CircuitState :=
  let fc := s.failure_count + 1
  if failure_threshold ≤ fc then
    { failure_count := fc, is_circuit_open := true,
      circuit_open_time := some now }
  else
    { s with failure_count := fc }

/-- `_record_success`: zero the counter, close the circuit, clear the
timestamp. -/
def record_success (_s : CircuitState) : CircuitState :=
  { failure_count := 0, is_circuit_open := false, circuit_open_time := none }

/-- `_fallback_response`: `None` when fallback mode is disabled, otherwise
the fallback dict literal of the source. -/
def fallback_response (cfg : ClientConfig) (_description : String)
    (fallback_category : Option String) (reason : String) :
    Option PredictionOutcome :=
  if cfg.fallback_enabled = false then
    none
  else
    some (.fb fallback_category 0 [] false true reason)

/-- The input guard `not description or not description.strip()` of
`predict_category`: true exactly when the description is empty or strips
to the empty string, i.e. when every one of its characters is
whitespace. -/
def blank_description (description : String) : Bool :=
  description.data.all (fun c => c.isWhitespace)

/-- What one `predict_category` call produced: the returned value, the
circuit state after the call, and how many `requests.post` executions the
call performed. -/
structure CallResult where
  outcome : Option PredictionOutcome
  state : CircuitState
  network_calls : Nat
deriving DecidableEq

/-- `predict_category`, with the current time and the behaviour of the
(at most one) outbound request as explicit parameters.

Branches in source order: disabled check, circuit-breaker check, empty
`description` check (`not description or not description.strip()`, i.e.
trimming leaves the empty string), then the request.  On HTTP 200 the
source calls `_record_success`, builds the result dict, and then formats
`result['confidence']:.4f` into a log line; when the payload carried no
confidence that formatting raises `TypeError`, which the final
`except Exception` converts to `_record_failure` plus the
"Unexpected error" fallback. -/
def predict_category (cfg : ClientConfig) (s : CircuitState) (now : Nat)
    (description : String) (fallback : Option String)
    (remote : RemoteResult) : CallResult :=
  if cfg.enabled = false then
    { outcome := fallback_response cfg description fallback "Service disabled",
      state := s, network_calls := 0 }
  else
    let checked := is_circuit_breaker_open s now
    let s1 := checked.2
    if checked.1 = true then
      { outcome :=
          fallback_response cfg description fallback "Circuit breaker open",
        state := s1, network_calls := 0 }
    else
      if blank_description description = true then
        { outcome := none, state := s1, network_calls := 0 }
      else
        match remote with
          | .response status payload =>
              if status = 200 then
                let s2 := record_success s1
                match payload.prediction.confidence with
                | some c =>
                    { outcome := some (.ok payload.prediction.category c
                        payload.prediction.alternatives
                        payload.metadata.preprocessed_text
                        payload.metadata.inference_time_ms
                        payload.metadata.model_version true),
                      state := s2, network_calls := 1 }
                | none =>
                    { outcome := fallback_response cfg description fallback
                        "Unexpected error",
                      state := record_failure s2 now, network_calls := 1 }
              else if status = 503 then
                { outcome := fallback_response cfg description fallback
                    "Service unavailable",
                  state := record_failure s1 now, network_calls := 1 }
              else
                { outcome := fallback_response cfg description fallback
                    ("HTTP " ++ toString status),
                  state := record_failure s1 now, network_calls := 1 }
          | .timeout =>
              { outcome := fallback_response cfg description fallback
                  "Timeout",
                state := record_failure s1 now, network_calls := 1 }
          | .connectionError =>
              { outcome := fallback_response cfg description fallback
                  "Connection error",
                state := record_failure s1 now, network_calls := 1 }
          | .raised =>
              { outcome := fallback_response cfg description fallback
                  "Unexpected error",
                state := record_failure s1 now, network_calls := 1 }

/-- Behaviour of the one `requests.post` in `predict_batch`: a response
with a status code and a `predictions` list (`data.get('predictions', [])`
on 200; list elements are arbitrary JSON values, hence
`Option PredictionOutcome`), or any exception with its message (the single
`except Exception as e` uses `str(e)` as the fallback reason). -/
inductive BatchRemoteResult where
  | response (status : Nat) (predictions : List (Option PredictionOutcome))
  | raised (msg : String)
deriving DecidableEq

/-- What one `predict_batch` call produced. -/
structure BatchResult where
  outcomes : List (Option PredictionOutcome)
  state : CircuitState
  network_calls : Nat
deriving DecidableEq

/-- `predict_batch`.  `not self.enabled or self._is_circuit_breaker_open()`
short-circuits: the breaker check (and its possible recovery mutation) runs
only when the client is enabled.  On 200 the remote `predictions` list is
returned verbatim; on any other status or exception every input description
maps to a fallback. -/
def predict_batch (cfg : ClientConfig) (s : CircuitState) (now : Nat)
    (descriptions : List String) (remote : BatchRemoteResult) : BatchResult :=
  if cfg.enabled = false then
    { outcomes := descriptions.map (fun d =>
        fallback_response cfg d none "Service disabled or circuit open"),
      state := s, network_calls := 0 }
  else
    let checked := is_circuit_breaker_open s now
    let s1 := checked.2
    if checked.1 = true then
      { outcomes := descriptions.map (fun d =>
          fallback_response cfg d none "Service disabled or circuit open"),
        state := s1, network_calls := 0 }
    else
        match remote with
        | .response status predictions =>
            if status = 200 then
              { outcomes := predictions, state := record_success s1,
                network_calls := 1 }
            else
              { outcomes := descriptions.map (fun d =>
                  fallback_response cfg d none "Batch failed"),
                state := record_failure s1 now, network_calls := 1 }
        | .raised msg =>
            { outcomes := descriptions.map (fun d =>
                fallback_response cfg d none msg),
              state := record_failure s1 now, network_calls := 1 }

/-- The arguments of one `predict_category` call together with the time it
happens at and the behaviour the network would exhibit. -/
structure PredictCall where
  now : Nat
  description : String
  fallback : Option String
  remote : RemoteResult
deriving DecidableEq

/-- Run `predict_category` on one call description. -/
def do_predict (cfg : ClientConfig) (s : CircuitState) (c : PredictCall) :
    CallResult :=
  predict_category cfg s c.now c.description c.fallback c.remote

/-- The circuit state after a sequence of `predict_category` calls. -/
def run_predicts (cfg : ClientConfig) (s : CircuitState) :
    List PredictCall → CircuitState
  | [] => s
  | c :: cs => run_predicts cfg (do_predict cfg s c).state cs

/-- The per-call results of a sequence of `predict_category` calls. -/
def predict_results (cfg : ClientConfig) (s : CircuitState) :
    List PredictCall → List CallResult
  | [] => []
  | c :: cs =>
      do_predict cfg s c :: predict_results cfg (do_predict cfg s c).state cs

/-- One public operation of the client, for reachability arguments. -/
inductive Op where
  | predict (c : PredictCall)
  | batch (now : Nat) (descriptions : List String)
      (remote : BatchRemoteResult)
deriving DecidableEq

/-- The circuit state after one public operation. -/
def step (cfg : ClientConfig) (s : CircuitState) : Op → CircuitState
  | .predict c => (do_predict cfg s c).state
  | .batch now descriptions remote =>
      (predict_batch cfg s now descriptions remote).state

/-- The circuit state after a sequence of public operations. -/
def run (cfg : ClientConfig) (s : CircuitState) (ops : List Op) :
    CircuitState :=
  ops.foldl (step cfg) s

/-- A remote behaviour counted as a failure by the client: any non-200
status, a timeout, a connection error, or any other raised exception. -/
def RemoteResult.is_failure : RemoteResult → Bool
  | .response status _ => status ≠ 200
  | .timeout => true
  | .connectionError => true
  | .raised => true

/-- Whether the batch request came back as HTTP 200 (the only`predict_batch`
branch that does not synthesize per-description fallbacks). -/
def BatchRemoteResult.ok200 : BatchRemoteResult → Bool
  | .response status _ => status = 200
  | .raised _ => false

/-- The fallback-reason string the source attaches to each failing remote
behaviour. -/
def failure_reason : RemoteResult → String
  | .response status _ =>
      if status = 503 then "Service unavailable" else "HTTP " ++ toString status
  | .timeout => "Timeout"
  | .connectionError => "Connection error"
  | .raised => "Unexpected error"

/-- `_is_circuit_breaker_open` on a closed circuit: no block, no mutation. -/
theorem breaker_closed (s : CircuitState) (now : Nat)
    (h : s.is_circuit_open = false) :
    is_circuit_breaker_open s now = (false, s) := by
  simp [is_circuit_breaker_open, h]

/-- `_is_circuit_breaker_open` on an open circuit inside the recovery
window: blocks and leaves the state untouched. -/
theorem breaker_blocked (s : CircuitState) (T now : Nat)
    (ho : s.is_circuit_open = true) (ht : s.circuit_open_time = some T)
    (h : now < T + recovery_timeout) :
    is_circuit_breaker_open s now = (true, s) := by
  have hn : ¬ recovery_timeout ≤ now - T := by
    unfold recovery_timeout at *; omega
  simp [is_circuit_breaker_open, ho, ht, hn]

/-- `_is_circuit_breaker_open` on an open circuit whose recovery timeout
has elapsed: does not block, and resets all three fields. -/
theorem breaker_recovered (s : CircuitState) (T now : Nat)
    (ho : s.is_circuit_open = true) (ht : s.circuit_open_time = some T)
    (h : T + recovery_timeout ≤ now) :
    is_circuit_breaker_open s now =
      (false, { failure_count := 0, is_circuit_open := false,
                circuit_open_time := none }) := by
  have hn : recovery_timeout ≤ now - T := by omega
  simp [is_circuit_breaker_open, ho, ht, hn]

/-- Whenever `_is_circuit_breaker_open` answers `True`, it has not
modified the state. -/
theorem breaker_true_frame (s : CircuitState) (now : Nat)
    (h : (is_circuit_breaker_open s now).1 = true) :
    (is_circuit_breaker_open s now).2 = s := by
  by_cases ho : s.is_circuit_open = false
  · simp [is_circuit_breaker_open, ho]
  · rcases hct : s.circuit_open_time with _ | T
    · simp [is_circuit_breaker_open, ho, hct]
    · by_cases hr : recovery_timeout ≤ now - T
      · simp [is_circuit_breaker_open, ho, hct, hr] at h
      · simp [is_circuit_breaker_open, ho, hct, hr]

/-- The invariant of section 3 of the spec: an open circuit always has a
non-null `openedAt`. -/
def circuit_inv (s : CircuitState) : Prop :=
  s.is_circuit_open = true → s.circuit_open_time ≠ none

theorem inv_init : circuit_inv init_state := by
  intro h; simp [init_state] at h

theorem inv_record_failure (s : CircuitState) (now : Nat)
    (h : circuit_inv s) : circuit_inv (record_failure s now) := by
  unfold circuit_inv record_failure
  by_cases hth : failure_threshold ≤ s.failure_count + 1
  · simp [hth]
  · simp [hth]; exact h

theorem inv_record_success (s : CircuitState) :
    circuit_inv (record_success s) := by
  intro h; simp [record_success] at h

theorem inv_breaker (s : CircuitState) (now : Nat) (h : circuit_inv s) :
    circuit_inv (is_circuit_breaker_open s now).2 := by
  by_cases ho : s.is_circuit_open = false
  · simpa [is_circuit_breaker_open, ho] using h
  · rcases hct : s.circuit_open_time with _ | T
    · simpa [is_circuit_breaker_open, ho, hct] using h
    · by_cases hr : recovery_timeout ≤ now - T
      · intro hx; simp [is_circuit_breaker_open, ho, hct, hr] at hx
      · simpa [is_circuit_breaker_open, ho, hct, hr] using h

theorem inv_predict (cfg : ClientConfig) (s : CircuitState) (now : Nat)
    (d : String) (f : Option String) (r : RemoteResult)
    (h : circuit_inv s) :
    circuit_inv (predict_category cfg s now d f r).state := by
  rcases hp : is_circuit_breaker_open s now with ⟨b, s1⟩
  have hs1 : circuit_inv s1 := by
    have := inv_breaker s now h
    rw [hp] at this; exact this
  unfold predict_category
  rw [hp]
  by_cases henb : cfg.enabled = false
  · simpa [henb] using h
  · cases b with
    | true => simpa [henb] using hs1
    | false =>
        by_cases hbl : blank_description d = true
        · simpa [henb, hbl] using hs1
        · cases r with
          | response status payload =>
              by_cases h200 : status = 200
              · rcases hcf : payload.prediction.confidence with _ | c
                · simpa [henb, hbl, h200, hcf] using
                    inv_record_failure _ now (inv_record_success s1)
                · simpa [henb, hbl, h200, hcf] using inv_record_success s1
              · by_cases h503 : status = 503
                · simpa [henb, hbl, h200, h503] using
                    inv_record_failure s1 now hs1
                · simpa [henb, hbl, h200, h503] using
                    inv_record_failure s1 now hs1
          | timeout => simpa [henb, hbl] using inv_record_failure s1 now hs1
          | connectionError =>
              simpa [henb, hbl] using inv_record_failure s1 now hs1
          | raised => simpa [henb, hbl] using inv_record_failure s1 now hs1

theorem inv_batch (cfg : ClientConfig) (s : CircuitState) (now : Nat)
    (ds : List String) (remote : BatchRemoteResult) (h : circuit_inv s) :
    circuit_inv (predict_batch cfg s now ds remote).state := by
  rcases hp : is_circuit_breaker_open s now with ⟨b, s1⟩
  have hs1 : circuit_inv s1 := by
    have := inv_breaker s now h
    rw [hp] at this; exact this
  unfold predict_batch
  rw [hp]
  by_cases henb : cfg.enabled = false
  · simpa [henb] using h
  · cases b with
    | true => simpa [henb] using hs1
    | false =>
        cases remote with
        | response status predictions =>
            by_cases h200 : status = 200
            · simpa [henb, h200] using inv_record_success s1
            · simpa [henb, h200] using inv_record_failure s1 now hs1
        | raised msg => simpa [henb] using inv_record_failure s1 now hs1

theorem inv_step (cfg : ClientConfig) (s : CircuitState) (op : Op)
    (h : circuit_inv s) : circuit_inv (step cfg s op) := by
  cases op with
  | predict c => exact inv_predict cfg s c.now c.description c.fallback c.remote h
  | batch now ds remote => exact inv_batch cfg s now ds remote h

theorem inv_run (cfg : ClientConfig) (s : CircuitState) (ops : List Op)
    (h : circuit_inv s) : circuit_inv (run cfg s ops) := by
  induction ops generalizing s with
  | nil => exact h
  | cons op ops ih => exact ih _ (inv_step cfg s op h)

/-- A `predict_category` call against an enabled client with an open
circuit still inside the recovery window: the `CircuitOpen` fallback is
returned with no network call and no state change, before the input is
even validated. -/
theorem predict_blocked_eq (cfg : ClientConfig) (s : CircuitState)
    (T now : Nat) (d : String) (f : Option String) (r : RemoteResult)
    (hen : cfg.enabled = true) (ho : s.is_circuit_open = true)
    (ht : s.circuit_open_time = some T) (hlt : now < T + recovery_timeout) :
    predict_category cfg s now d f r =
      { outcome := fallback_response cfg d f "Circuit breaker open",
        state := s, network_calls := 0 } := by
  unfold predict_category
  rw [breaker_blocked s T now ho ht hlt]
  simp [hen]

/-- A `predict_category` call that reaches the network and fails: the
matching fallback is returned and `_record_failure` runs on the
post-check state. -/
theorem predict_failure_eq (cfg : ClientConfig) (s : CircuitState)
    (now : Nat) (d : String) (f : Option String) (r : RemoteResult)
    (hen : cfg.enabled = true)
    (hcb : (is_circuit_breaker_open s now).1 = false)
    (hd : blank_description d = false)
    (hfail : r.is_failure = true) :
    predict_category cfg s now d f r =
      { outcome := fallback_response cfg d f (failure_reason r),
        state := record_failure (is_circuit_breaker_open s now).2 now,
        network_calls := 1 } := by
  rcases hp : is_circuit_breaker_open s now with ⟨b, s1⟩
  rw [hp] at hcb
  have hb : b = false := hcb
  subst hb
  unfold predict_category
  rw [hp]
  cases r with
  | response status payload =>
      have hst : status ≠ 200 := by
        simpa [RemoteResult.is_failure] using hfail
      by_cases h503 : status = 503
      · simp [hen, hd, hst, h503, failure_reason]
      · simp [hen, hd, hst, h503, failure_reason]
  | timeout => simp [hen, hd, failure_reason]
  | connectionError => simp [hen, hd, failure_reason]
  | raised => simp [hen, hd, failure_reason]

/-- A `predict_category` call that reaches the network and gets HTTP 200
with a body carrying a confidence: `_record_success` runs (all three
circuit fields reset, whatever they were) and the success dict is built
from the payload verbatim. -/
theorem predict_ok_eq (cfg : ClientConfig) (s : CircuitState) (now : Nat)
    (d : String) (f : Option String) (payload : Payload) (c : PyFloat)
    (hen : cfg.enabled = true)
    (hcb : (is_circuit_breaker_open s now).1 = false)
    (hd : blank_description d = false)
    (hc : payload.prediction.confidence = some c) :
    predict_category cfg s now d f (.response 200 payload) =
      { outcome := some (.ok payload.prediction.category c
          payload.prediction.alternatives payload.metadata.preprocessed_text
          payload.metadata.inference_time_ms payload.metadata.model_version
          true),
        state := { failure_count := 0, is_circuit_open := false,
                   circuit_open_time := none },
        network_calls := 1 } := by
  rcases hp : is_circuit_breaker_open s now with ⟨b, s1⟩
  rw [hp] at hcb
  have hb : b = false := hcb
  subst hb
  unfold predict_category
  rw [hp]
  simp [hen, hd, hc, record_success]

/-- A `predict_category` call that passes the enabled, circuit-breaker
and input checks performs exactly one network call, whatever the remote
does. -/
theorem predict_calls_one (cfg : ClientConfig) (s : CircuitState)
    (now : Nat) (d : String) (f : Option String) (r : RemoteResult)
    (hen : cfg.enabled = true)
    (hcb : (is_circuit_breaker_open s now).1 = false)
    (hd : blank_description d = false) :
    (predict_category cfg s now d f r).network_calls = 1 := by
  rcases hp : is_circuit_breaker_open s now with ⟨b, s1⟩
  rw [hp] at hcb
  have hb : b = false := hcb
  subst hb
  unfold predict_category
  rw [hp]
  cases r with
  | response status payload =>
      by_cases h200 : status = 200
      · rcases hcf : payload.prediction.confidence with _ | c
        · simp [hen, hd, h200, hcf]
        · simp [hen, hd, h200, hcf]
      · by_cases h503 : status = 503
        · simp [hen, hd, h200, h503]
        · simp [hen, hd, h200, h503]
  | timeout => simp [hen, hd]
  | connectionError => simp [hen, hd]
  | raised => simp [hen, hd]

/-- Every value `predict_category` can return: `None`, a fallback built by
`_fallback_response` for the caller's description and fallback category,
or the success dict. -/
theorem outcome_shape (cfg : ClientConfig) (s : CircuitState) (now : Nat)
    (d : String) (f : Option String) (r : RemoteResult) :
    (predict_category cfg s now d f r).outcome = none ∨
    (∃ reason, (predict_category cfg s now d f r).outcome =
        fallback_response cfg d f reason) ∨
    (∃ cat c alts pt itms mv, (predict_category cfg s now d f r).outcome =
        some (.ok cat c alts pt itms mv true)) := by
  rcases hp : is_circuit_breaker_open s now with ⟨b, s1⟩
  unfold predict_category
  rw [hp]
  by_cases henb : cfg.enabled = false
  · exact Or.inr (Or.inl ⟨"Service disabled", by simp [henb]⟩)
  · cases b with
    | true =>
        exact Or.inr (Or.inl ⟨"Circuit breaker open", by simp [henb]⟩)
    | false =>
        by_cases hbl : blank_description d = true
        · exact Or.inl (by simp [henb, hbl])
        · cases r with
          | response status payload =>
              by_cases h200 : status = 200
              · rcases hcf : payload.prediction.confidence with _ | c
                · exact Or.inr (Or.inl ⟨"Unexpected error",
                    by simp [henb, hbl, h200, hcf]⟩)
                · exact Or.inr (Or.inr ⟨payload.prediction.category, c,
                    payload.prediction.alternatives,
                    payload.metadata.preprocessed_text,
                    payload.metadata.inference_time_ms,
                    payload.metadata.model_version,
                    by simp [henb, hbl, h200, hcf]⟩)
              · by_cases h503 : status = 503
                · exact Or.inr (Or.inl ⟨"Service unavailable",
                    by simp [henb, hbl, h200, h503]⟩)
                · exact Or.inr (Or.inl ⟨"HTTP " ++ toString status,
                    by simp [henb, hbl, h200, h503]⟩)
          | timeout =>
              exact Or.inr (Or.inl ⟨"Timeout", by simp [henb, hbl]⟩)
          | connectionError =>
              exact Or.inr (Or.inl ⟨"Connection error", by simp [henb, hbl]⟩)
          | raised =>
              exact Or.inr (Or.inl ⟨"Unexpected error", by simp [henb, hbl]⟩)

/-- Any sequence of `predict_category` calls against an open circuit, all
inside the recovery window, returns the `CircuitOpen` fallback for each
call, performs no network call, and never changes the state. -/
theorem predict_results_blocked (cfg : ClientConfig) (fc T : Nat)
    (subs : List PredictCall) (hen : cfg.enabled = true)
    (hsubs : ∀ c ∈ subs, c.now < T + recovery_timeout) :
    predict_results cfg ⟨fc, true, some T⟩ subs =
      subs.map (fun c =>
        { outcome := fallback_response cfg c.description c.fallback
            "Circuit breaker open",
          state := ⟨fc, true, some T⟩, network_calls := 0 }) := by
  induction subs with
  | nil => simp [predict_results]
  | cons c cs ih =>
      have hc : c.now < T + recovery_timeout := hsubs c (by simp)
      have hstep : do_predict cfg ⟨fc, true, some T⟩ c =
          { outcome := fallback_response cfg c.description c.fallback
              "Circuit breaker open",
            state := ⟨fc, true, some T⟩, network_calls := 0 } := by
        unfold do_predict
        exact predict_blocked_eq cfg _ T c.now c.description c.fallback
          c.remote hen rfl rfl hc
      simp only [predict_results, hstep, List.map]
      exact congrArg _ (ih (fun x hx => hsubs x (by simp [hx])))

/-- C1: from the initial closed state, three consecutive failed
`predict_category` calls (any mix of non-200 status, timeout, connection
error, or other raised fault) leave the circuit closed after one and two
failures, open it with `openedAt` stamped at the third failure's time, and
every subsequent call made before 60 seconds have elapsed since that
failure returns the `CircuitOpen` fallback dict, performs no network call,
and leaves the state unchanged. -/
theorem C1_three_failures_open_then_short_circuit (cfg : ClientConfig)
    (c1 c2 c3 : PredictCall) (subs : List PredictCall)
    (hen : cfg.enabled = true) (hfb : cfg.fallback_enabled = true)
    (hd1 : blank_description c1.description = false)
    (hf1 : c1.remote.is_failure = true)
    (hd2 : blank_description c2.description = false)
    (hf2 : c2.remote.is_failure = true)
    (hd3 : blank_description c3.description = false)
    (hf3 : c3.remote.is_failure = true)
    (hsubs : ∀ c ∈ subs, c.now < c3.now + recovery_timeout) :
    run_predicts cfg init_state [c1] = ⟨1, false, none⟩ ∧
    run_predicts cfg init_state [c1, c2] = ⟨2, false, none⟩ ∧
    run_predicts cfg init_state [c1, c2, c3] = ⟨3, true, some c3.now⟩ ∧
    predict_results cfg ⟨3, true, some c3.now⟩ subs =
      subs.map (fun c =>
        { outcome := some (.fb c.fallback 0 [] false true
            "Circuit breaker open"),
          state := ⟨3, true, some c3.now⟩, network_calls := 0 }) := by
  have e1 : (do_predict cfg init_state c1).state = ⟨1, false, none⟩ := by
    unfold do_predict
    rw [predict_failure_eq cfg init_state c1.now c1.description c1.fallback
      c1.remote hen (by rw [breaker_closed init_state c1.now rfl]) hd1 hf1]
    rw [breaker_closed init_state c1.now rfl]
    simp [record_failure, failure_threshold, init_state]
  have e2 : (do_predict cfg ⟨1, false, none⟩ c2).state = ⟨2, false, none⟩ := by
    unfold do_predict
    rw [predict_failure_eq cfg ⟨1, false, none⟩ c2.now c2.description
      c2.fallback c2.remote hen
      (by rw [breaker_closed ⟨1, false, none⟩ c2.now rfl]) hd2 hf2]
    rw [breaker_closed ⟨1, false, none⟩ c2.now rfl]
    simp [record_failure, failure_threshold]
  have e3 : (do_predict cfg ⟨2, false, none⟩ c3).state =
      ⟨3, true, some c3.now⟩ := by
    unfold do_predict
    rw [predict_failure_eq cfg ⟨2, false, none⟩ c3.now c3.description
      c3.fallback c3.remote hen
      (by rw [breaker_closed ⟨2, false, none⟩ c3.now rfl]) hd3 hf3]
    rw [breaker_closed ⟨2, false, none⟩ c3.now rfl]
    simp [record_failure, failure_threshold]
  refine ⟨?_, ?_, ?_, ?_⟩
  · simp [run_predicts, e1]
  · simp [run_predicts, e1, e2]
  · simp [run_predicts, e1, e2, e3]
  · rw [predict_results_blocked cfg 3 c3.now subs hen hsubs]
    simp [fallback_response, hfb]

/-- C1 witness: a concrete trace — three failing calls (a timeout, an
HTTP 500, a connection error) at times 0, 10, 20 open the circuit, and a
call at time 50 is short-circuited. -/
theorem C1_witness :
    run_predicts ⟨true, true⟩ init_state [⟨0, "a", none, .timeout⟩] =
      ⟨1, false, none⟩ ∧
    run_predicts ⟨true, true⟩ init_state [⟨0, "a", none, .timeout⟩,
      ⟨10, "b", none, .response 500 ⟨⟨none, none, []⟩, ⟨none, none, none⟩⟩⟩] =
      ⟨2, false, none⟩ ∧
    run_predicts ⟨true, true⟩ init_state [⟨0, "a", none, .timeout⟩,
      ⟨10, "b", none, .response 500 ⟨⟨none, none, []⟩, ⟨none, none, none⟩⟩⟩,
      ⟨20, "c", none, .connectionError⟩] = ⟨3, true, some 20⟩ ∧
    predict_results ⟨true, true⟩ ⟨3, true, some 20⟩
        [⟨50, "d", none, .timeout⟩] =
      [{ outcome := some (.fb none 0 [] false true "Circuit breaker open"),
         state := ⟨3, true, some 20⟩, network_calls := 0 }] :=
  C1_three_failures_open_then_short_circuit ⟨true, true⟩
    ⟨0, "a", none, .timeout⟩
    ⟨10, "b", none, .response 500 ⟨⟨none, none, []⟩, ⟨none, none, none⟩⟩⟩
    ⟨20, "c", none, .connectionError⟩ [⟨50, "d", none, .timeout⟩]
    rfl rfl (by decide) (by decide) (by decide) (by decide) (by decide)
    (by decide) (by decide)

/-- C2 counterexample: with the circuit open since time 0 and a call at
time 100 (recovery timeout elapsed) whose trial request times out, the
code does NOT reopen the circuit: the optimistic reset zeroed the counter,
so the single failure leaves `failureCount = 1`, the circuit closed, and
`openedAt` cleared — contradicting "a failing trial call immediately
reopens the circuit with a fresh openedAt". -/
theorem C2_counterexample :
    (predict_category ⟨true, true⟩ ⟨3, true, some 0⟩ 100 "coffee" none
        .timeout).network_calls = 1 ∧
    ¬ ((predict_category ⟨true, true⟩ ⟨3, true, some 0⟩ 100 "coffee" none
        .timeout).state.is_circuit_open = true) ∧
    ¬ ((predict_category ⟨true, true⟩ ⟨3, true, some 0⟩ 100 "coffee" none
        .timeout).state.circuit_open_time = some 100) := by
  decide

/-- C2 (amended): when the circuit is open and ≥ 60 s have elapsed since
`openedAt`, the breaker check first resets `failureCount` to 0 and clears
the open flag and timestamp; the call then attempts exactly one network
call; if that trial succeeds (200 with a confidence) the circuit is closed
with `failureCount = 0`; if it fails, the circuit stays CLOSED with
`failureCount = 1` and `openedAt = None` (it does not reopen until the
threshold of 3 is reached again). -/
theorem C2_trial_after_recovery (cfg : ClientConfig) (s : CircuitState)
    (T now : Nat) (d : String) (f : Option String) (r : RemoteResult)
    (hen : cfg.enabled = true) (ho : s.is_circuit_open = true)
    (ht : s.circuit_open_time = some T) (hel : T + recovery_timeout ≤ now)
    (hd : blank_description d = false) :
    is_circuit_breaker_open s now = (false, ⟨0, false, none⟩) ∧
    (predict_category cfg s now d f r).network_calls = 1 ∧
    (∀ payload c, r = .response 200 payload →
      payload.prediction.confidence = some c →
      (predict_category cfg s now d f r).state = ⟨0, false, none⟩) ∧
    (r.is_failure = true →
      (predict_category cfg s now d f r).state = ⟨1, false, none⟩) := by
  have hbr := breaker_recovered s T now ho ht hel
  have hcb : (is_circuit_breaker_open s now).1 = false := by rw [hbr]
  refine ⟨hbr, predict_calls_one cfg s now d f r hen hcb hd, ?_, ?_⟩
  · intro payload c hr hc
    subst hr
    rw [predict_ok_eq cfg s now d f payload c hen hcb hd hc]
  · intro hfail
    rw [predict_failure_eq cfg s now d f r hen hcb hd hfail]
    show record_failure (is_circuit_breaker_open s now).2 now = _
    rw [hbr]
    simp [record_failure, failure_threshold]

/-- C2 witness: at the concrete open state (opened at 0, called at 100)
the breaker resets; a timing-out trial leaves state (1, closed, None); a
successful trial leaves state (0, closed, None). -/
theorem C2_witness :
    is_circuit_breaker_open ⟨3, true, some 0⟩ 100 =
      (false, ⟨0, false, none⟩) ∧
    (predict_category ⟨true, true⟩ ⟨3, true, some 0⟩ 100 "coffee" none
        .timeout).state = ⟨1, false, none⟩ ∧
    (predict_category ⟨true, true⟩ ⟨3, true, some 0⟩ 100 "coffee" none
        (.response 200 ⟨⟨some "Food", some (1/2), []⟩,
          ⟨none, none, none⟩⟩)).state = ⟨0, false, none⟩ := by
  obtain ⟨h1, -, -, h4⟩ := C2_trial_after_recovery ⟨true, true⟩
    ⟨3, true, some 0⟩ 0 100 "coffee" none .timeout rfl rfl rfl
    (by decide) (by decide)
  obtain ⟨-, -, h3, -⟩ := C2_trial_after_recovery ⟨true, true⟩
    ⟨3, true, some 0⟩ 0 100 "coffee" none
    (.response 200 ⟨⟨some "Food", some (1/2), []⟩, ⟨none, none, none⟩⟩)
    rfl rfl rfl (by decide) (by decide)
  exact ⟨h1, h4 (by decide), h3 _ (1/2) rfl rfl⟩

/-- C3: every failing remote behaviour (timeout, connection error, 503,
any other non-200 status, any other raised fault) is converted into the
fallback dict carrying the matching reason, with `success = False` and
`confidence = 0.0`; the embedding of `predict_category` is a total
function with no error channel, so no fault ever propagates to the caller.
Stated for an enabled client with fallback mode on (the defaults) whose
breaker check passes and whose input is non-blank, i.e. for exactly the
calls that reach the network. -/
theorem C3_failures_become_fallbacks (cfg : ClientConfig) (s : CircuitState)
    (now : Nat) (d : String) (f : Option String) (r : RemoteResult)
    (hen : cfg.enabled = true) (hfb : cfg.fallback_enabled = true)
    (hcb : (is_circuit_breaker_open s now).1 = false)
    (hd : blank_description d = false)
    (hfail : r.is_failure = true) :
    (predict_category cfg s now d f r).outcome =
      some (.fb f 0 [] false true (failure_reason r)) := by
  rw [predict_failure_eq cfg s now d f r hen hcb hd hfail]
  show fallback_response cfg d f (failure_reason r) = _
  simp [fallback_response, hfb]

/-- C3 witness: a connection error on a fresh client yields the
"Connection error" fallback with `success = False`, `confidence = 0`. -/
theorem C3_witness :
    (predict_category ⟨true, true⟩ init_state 0 "x" (some "Other")
        .connectionError).outcome =
      some (.fb (some "Other") 0 [] false true "Connection error") :=
  C3_failures_become_fallbacks ⟨true, true⟩ init_state 0 "x" (some "Other")
    .connectionError rfl rfl (by decide) (by decide) (by decide)

/-- C4: (i) in every state reachable from the initial state by any
sequence of `predict_category` / `predict_batch` operations, an open
circuit has a non-null `openedAt`; (ii) the breaker's recovery reset — the
only place besides `_record_success` that clears the open flag — zeroes
`failureCount` in the same mutation; (iii) `_record_success` clears the
flag and zeroes the counter together; (iv) `_record_failure` never clears
the flag.  Together (ii)–(iv) say every primitive state transition that
clears `isOpen` resets `failureCount` to 0 in that same operation. -/
theorem C4_open_stamped_and_reset_together :
    (∀ (cfg : ClientConfig) (ops : List Op),
        (run cfg init_state ops).is_circuit_open = true →
        (run cfg init_state ops).circuit_open_time ≠ none) ∧
    (∀ (s : CircuitState) (now : Nat), s.is_circuit_open = true →
        (is_circuit_breaker_open s now).2.is_circuit_open = false →
        (is_circuit_breaker_open s now).2.failure_count = 0) ∧
    (∀ s : CircuitState, (record_success s).is_circuit_open = false ∧
        (record_success s).failure_count = 0) ∧
    (∀ (s : CircuitState) (now : Nat), s.is_circuit_open = true →
        (record_failure s now).is_circuit_open = true) := by
  refine ⟨?_, ?_, ?_, ?_⟩
  · intro cfg ops
    exact inv_run cfg init_state ops inv_init
  · intro s now ho h2
    rcases hct : s.circuit_open_time with _ | T
    · simp [is_circuit_breaker_open, ho, hct] at h2
    · by_cases hr : recovery_timeout ≤ now - T
      · simp [is_circuit_breaker_open, ho, hct, hr]
      · simp [is_circuit_breaker_open, ho, hct, hr] at h2
  · intro s; exact ⟨rfl, rfl⟩
  · intro s now ho
    unfold record_failure
    by_cases hth : failure_threshold ≤ s.failure_count + 1
    · simp [hth]
    · simp [hth]; exact ho

/-- C4 witness: after three failing calls the reachable state is open with
a stamped timestamp; the concrete recovery reset zeroes the counter;
`_record_success` clears the flag; `_record_failure` keeps an open circuit
open. -/
theorem C4_witness :
    (run ⟨true, true⟩ init_state
        [.predict ⟨0, "a", none, .timeout⟩,
         .predict ⟨1, "b", none, .timeout⟩,
         .predict ⟨2, "c", none, .timeout⟩]).circuit_open_time ≠ none ∧
    (is_circuit_breaker_open ⟨3, true, some 0⟩ 100).2.failure_count = 0 ∧
    (record_success ⟨2, true, some 5⟩).is_circuit_open = false ∧
    (record_failure ⟨3, true, some 7⟩ 9).is_circuit_open = true := by
  obtain ⟨h1, h2, h3, h4⟩ := C4_open_stamped_and_reset_together
  exact ⟨h1 ⟨true, true⟩ _ (by decide), h2 ⟨3, true, some 0⟩ 100 rfl
    (by decide), (h3 ⟨2, true, some 5⟩).1, h4 ⟨3, true, some 7⟩ 9 rfl⟩

/-- C5 counterexample: the blank-input check runs AFTER the circuit-breaker
check, so a blank call against an open circuit whose recovery timeout has
elapsed does return `None` with zero network calls, but the breaker
pre-check has already mutated the circuit state (closed it and zeroed the
counter), contradicting "leaves the circuit state completely untouched". -/
theorem C5_counterexample :
    (predict_category ⟨true, true⟩ ⟨3, true, some 0⟩ 100 "   " none
        .timeout).outcome = none ∧
    (predict_category ⟨true, true⟩ ⟨3, true, some 0⟩ 100 "   " none
        .timeout).network_calls = 0 ∧
    ¬ ((predict_category ⟨true, true⟩ ⟨3, true, some 0⟩ 100 "   " none
        .timeout).state = ⟨3, true, some 0⟩) := by
  decide

/-- C5 (amended): for every blank (empty or whitespace-only) description,
provided the client is enabled and the circuit-breaker check answers
"not open", `predict_category` returns `None` (the `InvalidInput` signal),
performs zero network calls, and the state after the call is exactly the
state the breaker check left (so when the circuit was closed, the state is
completely untouched; the disabled and circuit-open checks run first and
take precedence, and an expired open circuit is reset by the pre-check
even on blank input). -/
theorem C5_blank_input (cfg : ClientConfig) (s : CircuitState) (now : Nat)
    (d : String) (f : Option String) (r : RemoteResult)
    (hen : cfg.enabled = true)
    (hcb : (is_circuit_breaker_open s now).1 = false)
    (hd : blank_description d = true) :
    (predict_category cfg s now d f r).outcome = none ∧
    (predict_category cfg s now d f r).network_calls = 0 ∧
    (predict_category cfg s now d f r).state =
      (is_circuit_breaker_open s now).2 ∧
    (s.is_circuit_open = false →
      (predict_category cfg s now d f r).state = s) := by
  rcases hp : is_circuit_breaker_open s now with ⟨b, s1⟩
  rw [hp] at hcb
  have hb : b = false := hcb
  subst hb
  unfold predict_category
  rw [hp]
  refine ⟨by simp [hen, hd], by simp [hen, hd], by simp [hen, hd], ?_⟩
  intro hcl
  rw [breaker_closed s now hcl] at hp
  injection hp with h1 h2
  simp [hen, hd, h2]

/-- C5 witness: a blank description against the fresh (closed) state
returns `None`, makes no network call, and leaves the state untouched. -/
theorem C5_witness :
    (predict_category ⟨true, true⟩ init_state 0 "" none
        .timeout).outcome = none ∧
    (predict_category ⟨true, true⟩ init_state 0 "" none
        .timeout).network_calls = 0 ∧
    (predict_category ⟨true, true⟩ init_state 0 "" none
        .timeout).state = init_state := by
  obtain ⟨h1, h2, -, h4⟩ := C5_blank_input ⟨true, true⟩ init_state 0 ""
    none .timeout rfl (by decide) (by decide)
  exact ⟨h1, h2, h4 rfl⟩

/-- C6: an HTTP 200 response whose body carries a confidence value makes
the client record a success — all three circuit fields reset, whatever the
prior `failureCount` — and return the success dict with category,
confidence, alternatives, preprocessed_text, inference_time_ms and
model_version copied verbatim from the payload (the confidence in
particular is echoed unchanged, with no rounding or clamping). -/
theorem C6_success_resets_and_echoes (cfg : ClientConfig)
    (s : CircuitState) (now : Nat) (d : String) (f : Option String)
    (payload : Payload) (c : PyFloat)
    (hen : cfg.enabled = true)
    (hcb : (is_circuit_breaker_open s now).1 = false)
    (hd : blank_description d = false)
    (hc : payload.prediction.confidence = some c) :
    predict_category cfg s now d f (.response 200 payload) =
      { outcome := some (.ok payload.prediction.category c
          payload.prediction.alternatives payload.metadata.preprocessed_text
          payload.metadata.inference_time_ms payload.metadata.model_version
          true),
        state := ⟨0, false, none⟩,
        network_calls := 1 } :=
  predict_ok_eq cfg s now d f payload c hen hcb hd hc

/-- C6 witness: the spec's scenario — "Zomato food order" answered with
category "Food", confidence 0.8523 — echoed verbatim, with the prior
failure count 2 reset to 0. -/
theorem C6_witness :
    predict_category ⟨true, true⟩ ⟨2, false, none⟩ 7 "Zomato food order"
        none (.response 200
          ⟨⟨some "Food", some (8523/10000),
            [⟨some "Transport", some (1/10)⟩]⟩,
           ⟨some "zomato food order", some (123/10), some "v1"⟩⟩) =
      { outcome := some (.ok (some "Food") (8523/10000)
          [⟨some "Transport", some (1/10)⟩] (some "zomato food order")
          (some (123/10)) (some "v1") true),
        state := ⟨0, false, none⟩,
        network_calls := 1 } :=
  C6_success_resets_and_echoes ⟨true, true⟩ ⟨2, false, none⟩ 7
    "Zomato food order" none
    ⟨⟨some "Food", some (8523/10000), [⟨some "Transport", some (1/10)⟩]⟩,
     ⟨some "zomato food order", some (123/10), some "v1"⟩⟩
    (8523/10000) rfl (by decide) (by decide) rfl

/-- C7: with the client administratively disabled, every call returns the
"Service disabled" fallback (when fallback mode is on), makes no network
call, returns the circuit state unchanged, and its returned value does not
depend on the circuit state at all — the breaker is bypassed entirely. -/
theorem C7_disabled_bypass (cfg : ClientConfig) (s : CircuitState)
    (now : Nat) (d : String) (f : Option String) (r : RemoteResult)
    (hdis : cfg.enabled = false) :
    (predict_category cfg s now d f r).state = s ∧
    (predict_category cfg s now d f r).network_calls = 0 ∧
    (∀ s', (predict_category cfg s' now d f r).outcome =
        (predict_category cfg s now d f r).outcome) ∧
    (cfg.fallback_enabled = true →
      (predict_category cfg s now d f r).outcome =
        some (.fb f 0 [] false true "Service disabled")) := by
  refine ⟨by simp [predict_category, hdis], by simp [predict_category, hdis],
    ?_, ?_⟩
  · intro s'
    simp [predict_category, hdis]
  · intro hfb
    simp [predict_category, hdis, fallback_response, hfb]

/-- C7 witness: a disabled client called on an arbitrary dirty circuit
state returns the "Service disabled" fallback and touches nothing. -/
theorem C7_witness :
    (predict_category ⟨false, true⟩ ⟨1, true, some 2⟩ 5 "x" (some "Misc")
        .timeout).state = ⟨1, true, some 2⟩ ∧
    (predict_category ⟨false, true⟩ ⟨1, true, some 2⟩ 5 "x" (some "Misc")
        .timeout).network_calls = 0 ∧
    (predict_category ⟨false, true⟩ ⟨1, true, some 2⟩ 5 "x" (some "Misc")
        .timeout).outcome =
      some (.fb (some "Misc") 0 [] false true "Service disabled") := by
  obtain ⟨h1, h2, -, h4⟩ := C7_disabled_bypass ⟨false, true⟩
    ⟨1, true, some 2⟩ 5 "x" (some "Misc") .timeout rfl
  exact ⟨h1, h2, h4 rfl⟩

/-- C8 counterexample: with the circuit closed and the client enabled, a
batch call for one description answered HTTP 200 with an EMPTY
`predictions` list returns that empty list verbatim — not one outcome per
input — because `predict_batch` performs no length check on the 200
path. -/
theorem C8_counterexample :
    (predict_batch ⟨true, true⟩ init_state 0 ["a"]
        (.response 200 [])).network_calls = 1 ∧
    ¬ ((predict_batch ⟨true, true⟩ init_state 0 ["a"]
        (.response 200 [])).outcomes.length = 1) := by
  decide

/-- C8 (amended): `predict_batch` returns one fallback outcome per input
in the same order on every path except HTTP 200: when the client is
disabled, or the circuit is open (within the recovery window), each input
maps to the "Service disabled or circuit open" fallback with zero network
calls and no state change; on a non-200 or raised batch call each input
maps to a fallback and the length is preserved; on HTTP 200 the remote's
`predictions` list is returned verbatim, so one-outcome-per-input holds
only if the remote honours it. -/
theorem C8_batch_shape (cfg : ClientConfig) (s : CircuitState) (now : Nat)
    (ds : List String) (remote : BatchRemoteResult) :
    (cfg.enabled = false →
      predict_batch cfg s now ds remote =
        { outcomes := ds.map (fun d => fallback_response cfg d none
            "Service disabled or circuit open"),
          state := s, network_calls := 0 }) ∧
    (cfg.enabled = true → (is_circuit_breaker_open s now).1 = true →
      predict_batch cfg s now ds remote =
        { outcomes := ds.map (fun d => fallback_response cfg d none
            "Service disabled or circuit open"),
          state := s, network_calls := 0 }) ∧
    (cfg.enabled = true → (is_circuit_breaker_open s now).1 = false →
      (∀ preds, remote = .response 200 preds →
        (predict_batch cfg s now ds remote).outcomes = preds) ∧
      (remote.ok200 = false →
        (predict_batch cfg s now ds remote).outcomes.length = ds.length ∧
        (predict_batch cfg s now ds remote).network_calls = 1)) := by
  refine ⟨?_, ?_, ?_⟩
  · intro hdis
    simp [predict_batch, hdis]
  · intro hen hop
    have hframe := breaker_true_frame s now hop
    rcases hp : is_circuit_breaker_open s now with ⟨b, s1⟩
    rw [hp] at hop hframe
    have hb : b = true := hop
    subst hb
    unfold predict_batch
    rw [hp]
    simp only at hframe
    simp [hen, hframe]
  · intro hen hcb
    rcases hp : is_circuit_breaker_open s now with ⟨b, s1⟩
    rw [hp] at hcb
    have hb : b = false := hcb
    subst hb
    constructor
    · intro preds hr
      subst hr
      unfold predict_batch
      rw [hp]
      simp [hen]
    · intro hok
      cases remote with
      | response status preds =>
          have hst : status ≠ 200 := by
            simpa [BatchRemoteResult.ok200] using hok
          unfold predict_batch
          rw [hp]
          simp [hen, hst]
      | raised msg =>
          unfold predict_batch
          rw [hp]
          simp [hen]

/-- C8 witness: the spec's scenario — a batch of 5 descriptions while the
circuit is open returns 5 fallback outcomes, 0 network calls, state
untouched; and a non-200 batch answer still yields one fallback per
input. -/
theorem C8_witness :
    predict_batch ⟨true, true⟩ ⟨3, true, some 0⟩ 10 ["a", "b", "c", "d", "e"]
        (.raised "boom") =
      { outcomes := List.replicate 5 (some (.fb none 0 [] false true
          "Service disabled or circuit open")),
        state := ⟨3, true, some 0⟩, network_calls := 0 } ∧
    (predict_batch ⟨true, true⟩ init_state 10 ["a", "b"]
        (.response 500 [])).outcomes.length = 2 := by
  have h1 := (C8_batch_shape ⟨true, true⟩ ⟨3, true, some 0⟩ 10
    ["a", "b", "c", "d", "e"] (.raised "boom")).2.1 rfl (by decide)
  have h2 := ((C8_batch_shape ⟨true, true⟩ init_state 10 ["a", "b"]
    (.response 500 [])).2.2 rfl (by decide)).2 (by decide)
  exact ⟨by rw [h1]; decide, h2.1⟩

/-- C9: when fallback mode is disabled, `_fallback_response` returns
`None` for every description, category and reason, and consequently
`predict_category` never returns a fallback-shaped dict: every `Some`
outcome it can produce is the success dict, so a caller sees `None`
("fallback suppressed") instead of a structured fallback ("fallback
produced"), and can distinguish the two. -/
theorem C9_fallback_suppressed (cfg : ClientConfig) (s : CircuitState)
    (now : Nat) (d : String) (f : Option String) (r : RemoteResult)
    (hfb : cfg.fallback_enabled = false) :
    (∀ (desc : String) (fcat : Option String) (reason : String),
      fallback_response cfg desc fcat reason = none) ∧
    (∀ o, (predict_category cfg s now d f r).outcome = some o →
      o.is_fallback = false) := by
  have hfr : ∀ (desc : String) (fcat : Option String) (reason : String),
      fallback_response cfg desc fcat reason = none := by
    intro _ _ _
    simp [fallback_response, hfb]
  refine ⟨hfr, ?_⟩
  intro o ho
  rcases outcome_shape cfg s now d f r with h | ⟨reason, h⟩ |
    ⟨cat, c, alts, pt, itms, mv, h⟩
  · rw [h] at ho; cases ho
  · rw [h, hfr] at ho; cases ho
  · rw [h] at ho
    injection ho with h2
    rw [← h2]
    rfl

/-- C9 witness: with fallback mode off, the fallback constructor yields
`None`, and a timing-out call returns no outcome at all. -/
theorem C9_witness :
    fallback_response ⟨true, false⟩ "y" (some "Z") "Timeout" = none := by
  obtain ⟨h1, -⟩ := C9_fallback_suppressed ⟨true, false⟩ init_state 0 "x"
    none .timeout rfl
  exact h1 "y" (some "Z") "Timeout"

/-- C10: a call against an enabled client whose circuit is open with less
than 60 s elapsed since `openedAt` (here with a non-blank description)
returns exactly the `CircuitOpen` fallback, performs zero network calls,
and returns the circuit state bit-for-bit unchanged. -/
theorem C10_short_circuit_frame (cfg : ClientConfig) (s : CircuitState)
    (T now : Nat) (d : String) (f : Option String) (r : RemoteResult)
    (hen : cfg.enabled = true) (ho : s.is_circuit_open = true)
    (ht : s.circuit_open_time = some T) (hlt : now < T + recovery_timeout)
    (_hd : blank_description d = false) :
    predict_category cfg s now d f r =
      { outcome := fallback_response cfg d f "Circuit breaker open",
        state := s, network_calls := 0 } :=
  predict_blocked_eq cfg s T now d f r hen ho ht hlt

/-- C10 witness: circuit opened at time 0, call at time 30: the
`CircuitOpen` fallback comes back and the state is exactly preserved. -/
theorem C10_witness :
    predict_category ⟨true, true⟩ ⟨3, true, some 0⟩ 30 "x" none .timeout =
      { outcome := some (.fb none 0 [] false true "Circuit breaker open"),
        state := ⟨3, true, some 0⟩, network_calls := 0 } :=
  C10_short_circuit_frame ⟨true, true⟩ ⟨3, true, some 0⟩ 0 30 "x" none
    .timeout rfl rfl rfl (by decide) (by decide)
